import Mathlib

/-!
Verification of the conversation/session and prompt-orchestration layer of the
ai-agent-builder repository: a shallow embedding of `GeminiContentService`
(chat sessions, prompt assembly, suggestion extraction) and of the
`POST /test-model/:modelId` Express handler, with theorems settling the
frozen specification claims.
-/

namespace AgentBuilder

/-! ## Data model -/

/-- A chat message: role ∈ {"system","user","assistant"}, text, ISO timestamp. -/
structure Message where
  role : String
  content : String
  timestamp : String
deriving Repr, DecidableEq

/-- The free-form context blob passed to chat calls.  The service only ever
reads `context.spyfuData`, which it interpolates via `JSON.stringify`; we carry
the already-serialized string. -/
structure ChatContext where
  spyfuData : Option String := none
deriving Repr, DecidableEq

/-- A persisted `contentChatSessions` row (fields the service reads/writes). -/
structure ChatSession where
  id : Nat
  userId : String
  contentPieceId : Option Nat := none
  sessionType : String
  context : ChatContext := {}
  messages : List Message
  updatedAt : String := ""
deriving Repr, DecidableEq

/-! ## Prompt assembly (`buildSystemPrompt`, `buildChatPrompt`,
`buildSEOContentPrompt`) — pure string builders, embedded verbatim. -/

/-- `buildSystemPrompt(sessionType, context)`: base strategist prompt plus a
session-type-specific suffix; the context argument is accepted but unused. -/
def buildSystemPrompt (sessionType : String) (_context : ChatContext := {}) : String :=
  let basePrompt := "You are an expert content strategist and SEO specialist helping users create high-quality, search-optimized content."
  if sessionType = "content_creation" then
    basePrompt ++ " You help brainstorm ideas, structure content, and optimize for search engines. Be creative, practical, and focused on results."
  else if sessionType = "seo_optimization" then
    basePrompt ++ " You specialize in improving existing content for better search rankings. Analyze content gaps, keyword opportunities, and provide specific optimization recommendations."
  else if sessionType = "rewrite" then
    basePrompt ++ " You excel at rewriting content to improve clarity, engagement, and SEO performance while preserving the original message and tone."
  else
    basePrompt

/-- One iteration of the `conversation.forEach` in `buildChatPrompt`: the text
appended for a single message (empty for unknown roles). -/
def renderChatMessage (m : Message) : String :=
  if m.role = "system" then "SYSTEM: " ++ m.content ++ "\n\n"
  else if m.role = "user" then "USER: " ++ m.content ++ "\n\n"
  else if m.role = "assistant" then "ASSISTANT: " ++ m.content ++ "\n\n"
  else ""

/-- The optional SpyFu context block appended by `buildChatPrompt`. -/
def spyfuBlock (context : ChatContext) : String :=
  match context.spyfuData with
  | some d => "\nAVAILABLE CONTEXT:\nSpyFu Analysis: " ++ d ++ "\n\n"
  | none => ""

/-- `buildChatPrompt(conversation, context)`: folds the rendered messages, then
appends the SpyFu block and the fixed closing instruction. -/
def buildChatPrompt (conversation : List Message) (context : ChatContext := {}) : String :=
  (conversation.foldl (fun acc m => acc ++ renderChatMessage m) "")
    ++ spyfuBlock context
    ++ "Please provide a helpful, actionable response:"

/-- Parameter record of `buildSEOContentPrompt`. -/
structure SEOPromptParams where
  title : String
  contentType : String
  keywords : List String
  targetAudience : String
  contentLength : String
  tone : String
  spyfuData : Option String := none
deriving Repr, DecidableEq

/-- The optional competitive-insights block of `buildSEOContentPrompt`. -/
def seoSpyfuBlock (spyfuData : Option String) : String :=
  match spyfuData with
  | some d => "\nCOMPETITIVE INSIGHTS:\n" ++ d ++ "\n"
  | none => ""

/-- `buildSEOContentPrompt(params)`: fixed scaffold text with the parameters
interpolated, exactly as in the template literal. -/
def buildSEOContentPrompt (params : SEOPromptParams) : String :=
  "You are an expert SEO content writer specializing in " ++ params.contentType ++
  " content. Create comprehensive, engaging content that ranks well in search engines.\n\nCONTENT BRIEF:\n- Title: " ++ params.title ++
  "\n- Content Type: " ++ params.contentType ++
  "\n- Target Length: " ++ params.contentLength ++
  "\n- Tone: " ++ params.tone ++
  "\n- Target Audience: " ++ params.targetAudience ++
  "\n\nPRIMARY KEYWORDS TO TARGET:\n" ++ String.intercalate ", " params.keywords ++
  "\n\n" ++ seoSpyfuBlock params.spyfuData ++
  "\n\nCONTENT REQUIREMENTS:\n1. Create a compelling headline and introduction\n2. Naturally integrate target keywords throughout\n3. Use semantic keywords and related terms\n4. Structure with clear headers (H2, H3) for readability\n5. Include actionable insights and value for readers\n6. Optimize for featured snippets where possible\n7. Write meta description (150-160 characters)\n8. Suggest internal linking opportunities\n\nOUTPUT FORMAT:\nProvide the content in markdown format with:\n- Clear heading structure\n- Natural keyword integration\n- Engaging and informative content\n- Meta description suggestion at the end\n\nContent:"

/-! ## `generateSEOContent`: length-bucket lookup and prompt construction. -/

/-- The `contentLength` union type `"short" | "medium" | "long"`. -/
inductive LengthBucket where
  | short
  | medium
  | long
deriving Repr, DecidableEq

/-- The `lengthGuide` lookup object in `generateSEOContent`. -/
def lengthGuide : LengthBucket → String
  | .short => "300-500 words"
  | .medium => "800-1200 words"
  | .long => "1500-2500 words"

/-- The prompt assembled by `generateSEOContent` before the provider call.
`contentLength` is optional with JS default `"medium"`; `none` models a call
that omits the argument. -/
def generateSEOContentPrompt (title : String) (contentType : String)
    (keywords : List String) (targetAudience : String)
    (contentLength : Option LengthBucket := none)
    (tone : String := "professional") (spyfuData : Option String := none) : String :=
  let bucket := contentLength.getD .medium
  buildSEOContentPrompt
    { title := title
      contentType := contentType
      keywords := keywords
      targetAudience := targetAudience
      contentLength := lengthGuide bucket
      tone := tone
      spyfuData := spyfuData }

/-! ## Session store and `chatWithGemini`

The database of `contentChatSessions` rows is modelled as a list; the Gemini
provider (`model.generateContent` / `response.text()`) as a function
`gen : String → Except String String` whose `.error` case models a thrown
provider error.  A `chatWithGemini` call returns the outcome together with the
database state after the call, so that persistence on the failure path can be
stated. -/

/-- The database state: the `contentChatSessions` table. -/
abbrev SessionStore := List ChatSession

/-- `getChatSession(sessionId, userId)`: `select … where id = sessionId and
userId = userId limit 1` — the first row matching both filters, if any. -/
def getChatSession (st : SessionStore) (sessionId : Nat) (userId : String) :
    Option ChatSession :=
  st.find? (fun s => s.id = sessionId && s.userId = userId)

/-- `startContentSession(userId, contentPieceId?, sessionType, context)`:
inserts a fresh row with an empty message list (the new row's id is supplied by
the store; `now` models the row timestamp). -/
def startContentSession (st : SessionStore) (newId : Nat) (userId : String)
    (contentPieceId : Option Nat := none)
    (sessionType : String := "content_creation") (context : ChatContext := {})
    (now : String := "") : SessionStore × ChatSession :=
  let session : ChatSession :=
    { id := newId, userId := userId, contentPieceId := contentPieceId
      sessionType := sessionType, context := context, messages := []
      updatedAt := now }
  (st ++ [session], session)

/-- The `db.update(contentChatSessions).set({messages, updatedAt}).where(eq(id,
sessionId))` step: every row with the given id gets the new message list and
timestamp. -/
def updateSessionMessages (st : SessionStore) (sessionId : Nat)
    (updatedMessages : List Message) (now : String) : SessionStore :=
  st.map (fun s =>
    if s.id = sessionId then { s with messages := updatedMessages, updatedAt := now }
    else s)

/-- The value returned by a successful `chatWithGemini` call. -/
structure ChatResult where
  message : String
  sessionId : Nat
  suggestions : List String
deriving Repr, DecidableEq

/-! ## `extractSuggestions`

The five fixed patterns `/consider\s+([^.]+)/gi`, `/try\s+([^.]+)/gi`,
`/you\s+could\s+([^.]+)/gi`, `/i\s+recommend\s+([^.]+)/gi`,
`/suggestion:\s*([^.]+)/gi` are embedded directly: a literal word sequence
matched case-insensitively, whitespace separators, and a greedy nonempty run of
non-period characters.  `String.prototype.match` with the `g` flag yields the
non-overlapping matches scanning left to right, restarting after each match. -/

/-- JS `\s` whitespace class (the characters relevant to this code). -/
def isJsWs (c : Char) : Bool :=
  c = ' ' || c = '\t' || c = '\n' || c = '\r' ||
  c = '\x0b' || c = '\x0c' || c = '\xa0' || c = '\ufeff'

/-- Case-insensitive literal at the head: if `lit` matches the start of `s` up
to `Char.toLower`, return the remainder of `s`. -/
def ciStripLit : List Char → List Char → Option (List Char)
  | [], s => some s
  | _ :: _, [] => none
  | l :: ls, c :: cs => if l.toLower = c.toLower then ciStripLit ls cs else none

/-- Length of the maximal whitespace run at the head (`\s*` greedy). -/
def wsRunLen : List Char → Nat
  | [] => 0
  | c :: cs => if isJsWs c then wsRunLen cs + 1 else 0

/-- Length of the maximal run of non-period characters at the head (`[^.]*`
greedy; `[^.]` matches every character except `.`, newlines included). -/
def nonPeriodRunLen : List Char → Nat
  | [] => 0
  | c :: cs => if c = '.' then 0 else nonPeriodRunLen cs + 1

/-- Match `lit` followed by `\s+([^.]+)` at the head of `s`, returning the
total match length.  After the literal, backtracking succeeds exactly when the
first character is whitespace and the non-period run has length at least two
(one character for `\s+`, one for `[^.]+`); the greedy match then covers the
whole non-period run. -/
def litWsBodyLen (lit : List Char) (s : List Char) : Option Nat :=
  match ciStripLit lit s with
  | none => none
  | some [] => none
  | some (c :: cs) =>
    let r := nonPeriodRunLen (c :: cs)
    if isJsWs c && 2 ≤ r then some (lit.length + r) else none

/-- Match `w1\s+w2\s+([^.]+)` at the head of `s`: the inter-word `\s+` must be
the maximal whitespace run (nonempty), since `w2` starts with a non-whitespace
character. -/
def twoWordLen (w1 w2 : List Char) (s : List Char) : Option Nat :=
  match ciStripLit w1 s with
  | none => none
  | some t1 =>
    let k := wsRunLen t1
    if k = 0 then none
    else
      match litWsBodyLen w2 (t1.drop k) with
      | none => none
      | some n => some (w1.length + k + n)

/-- Match `suggestion:\s*([^.]+)` at the head of `s`: with `\s*` optional, the
tail succeeds exactly when at least one non-period character follows the
literal, and the greedy match covers the whole non-period run. -/
def sugColonLen (s : List Char) : Option Nat :=
  match ciStripLit "suggestion:".data s with
  | none => none
  | some t =>
    let r := nonPeriodRunLen t
    if 1 ≤ r then some ("suggestion:".data.length + r) else none

/-- The five suggestion patterns, in the order of the `patterns` array. -/
inductive SugPattern where
  | considerP
  | tryP
  | youCouldP
  | iRecommendP
  | suggestionP
deriving Repr, DecidableEq

/-- The `patterns` array of `extractSuggestions`. -/
def allPatterns : List SugPattern :=
  [.considerP, .tryP, .youCouldP, .iRecommendP, .suggestionP]

/-- Length of the match of a pattern starting exactly at the head of `s`. -/
def matchLenAt : SugPattern → List Char → Option Nat
  | .considerP, s => litWsBodyLen "consider".data s
  | .tryP, s => litWsBodyLen "try".data s
  | .youCouldP, s => twoWordLen "you".data "could".data s
  | .iRecommendP, s => twoWordLen "i".data "recommend".data s
  | .suggestionP, s => sugColonLen s

/-- Left-to-right global scan: at each position try the pattern; on a match,
emit it and resume after it, otherwise advance one character.  `fuel` bounds
the recursion; every match is nonempty, so `fuel = s.length` suffices. -/
def scanMatches (p : SugPattern) : Nat → List Char → List (List Char)
  | 0, _ => []
  | fuel + 1, s =>
    match matchLenAt p s with
    | some n => s.take n :: scanMatches p fuel (s.drop n)
    | none =>
      match s with
      | [] => []
      | _ :: rest => scanMatches p fuel rest

/-- `response.match(pattern)` with the `g` flag: the list of match strings. -/
def findMatches (p : SugPattern) (s : List Char) : List (List Char) :=
  scanMatches p s.length s

/-- The alternatives of the cleaning regex
`^(consider|try|you could|i recommend|suggestion:)\s*`, in regex order. -/
def cleanAlternatives : List (List Char) :=
  ["consider".data, "try".data, "you could".data,
   "i recommend".data, "suggestion:".data]

/-- The `match.replace(/^(consider|try|you could|i recommend|suggestion:)\s*/i,
"")` step: the first alternative that matches case-insensitively at the head is
dropped together with the following whitespace run; otherwise the string is
unchanged. -/
def stripLeadPhrase (m : List Char) : List Char :=
  match cleanAlternatives.findSome? (fun alt => ciStripLit alt m) with
  | some t => t.drop (wsRunLen t)
  | none => m

/-- JS `String.prototype.trim`: drop whitespace from both ends. -/
def trimWs (s : List Char) : List Char :=
  ((s.dropWhile isJsWs).reverse.dropWhile isJsWs).reverse

/-- The cleaning applied to each match:
`match.replace(^phrase\s*, "").trim()`. -/
def cleanMatch (m : List Char) : List Char :=
  trimWs (stripLeadPhrase m)

/-- `extractSuggestions(response)`: for each pattern in order, for each match
in scan order, keep the cleaned text when its length is strictly between 10
and 100; return the first five. -/
def extractSuggestions (response : String) : List String :=
  ((allPatterns.flatMap (fun p => findMatches p response.data)).filterMap
    (fun m =>
      let cleaned := cleanMatch m
      if 10 < cleaned.length && cleaned.length < 100 then some (String.mk cleaned)
      else none)).take 5

/-- The full conversation list `chatWithGemini` passes to `buildChatPrompt`:
synthetic system turn, stored history, new user turn (the synthetic turns carry
no timestamp; `buildChatPrompt` reads only role and content). -/
def fullConversation (session : ChatSession) (userMessage : String)
    (context : ChatContext) : List Message :=
  ⟨"system", buildSystemPrompt session.sessionType context, ""⟩ ::
    session.messages ++ [⟨"user", userMessage, ""⟩]

/-- `chatWithGemini(sessionId, userMessage, userId, context)`.  Errors are the
`Error` messages thrown by the source; the returned store is the database state
when the call finishes.  `gen` is the provider, `now` the value of
`new Date().toISOString()` during the call. -/
def chatWithGemini (gen : String → Except String String) (now : String)
    (st : SessionStore) (sessionId : Nat) (userMessage : String)
    (userId : String) (context : ChatContext := {}) :
    Except String ChatResult × SessionStore :=
  match getChatSession st sessionId userId with
  | none => (.error "Chat session not found", st)
  | some session =>
    let conversationHistory := session.messages
    let prompt := buildChatPrompt (fullConversation session userMessage context) context
    match gen prompt with
    | .error _ => (.error "Failed to process chat message", st)
    | .ok assistantMessage =>
      let updatedMessages := conversationHistory ++
        [⟨"user", userMessage, now⟩, ⟨"assistant", assistantMessage, now⟩]
      let st' := updateSessionMessages st sessionId updatedMessages now
      (.ok { message := assistantMessage, sessionId := sessionId,
             suggestions := extractSuggestions assistantMessage }, st')

/-- A sequence of `chatWithGemini` exchanges on one session, stopping at the
first failure: the database state after all user messages in `msgs` have been
processed successfully. -/
def runExchanges (gen : String → Except String String) (now : String)
    (sessionId : Nat) (userId : String) (context : ChatContext) :
    List String → SessionStore → Except String SessionStore
  | [], st => .ok st
  | m :: rest, st =>
    match chatWithGemini gen now st sessionId m userId context with
    | (.error e, _) => .error e
    | (.ok _, st') => runExchanges gen now sessionId userId context rest st'

/-! ## The `GeminiContentService` constructor -/

/-- The constructed service handle: the credential and the fixed model name
passed to `getGenerativeModel`. -/
structure GeminiContentService where
  apiKey : String
  modelName : String
deriving Repr, DecidableEq

/-- `new GeminiContentService()`: reads `process.env.GEMINI_API_KEY` (the
environment is `env`); a falsy value — the variable absent, or set to the empty
string — throws before anything else runs. -/
def mkGeminiContentService (env : String → Option String) :
    Except String GeminiContentService :=
  match env "GEMINI_API_KEY" with
  | none => .error "GEMINI_API_KEY environment variable is required"
  | some k =>
    if k = "" then .error "GEMINI_API_KEY environment variable is required"
    else .ok { apiKey := k, modelName := "gemini-2.5-flash" }

/-! ## The `POST /test-model/:modelId` handler -/

/-- An API client handle plus provider-side model name, as returned by
`ModelConfigService.selectClientAndModel`. -/
structure ClientModel where
  client : String
  modelName : String
deriving Repr, DecidableEq

/-- Modelled from the spec: `ModelConfigService.selectClientAndModel` is not
under src/ (only its caller `test-models.ts` is).  Per the spec, the Model
Configuration Service, "given a logical model identifier, returns the concrete
provider client handle and provider-side model name to invoke", and an
"unknown identifier must fail with a clear 'unsupported model' condition rather
than silently defaulting"; the static model table is the map `cfg`. -/
def selectClientAndModel (cfg : String → Option ClientModel) (modelId : String) :
    Except String ClientModel :=
  match cfg modelId with
  | some cm => .ok cm
  | none => .error ("Unsupported model: " ++ modelId)

/-- The `completionParams` object built by the handler.  The temperature 0.7 is
recorded in tenths to keep the model exact. -/
structure CompletionParams where
  model : String
  systemContent : String
  userContent : String
  maxCompletionTokens : Option Nat := none
  maxTokens : Option Nat := none
  temperatureTenths : Option Nat := none
deriving Repr, DecidableEq

/-- A provider chat completion: reply text and usage figures. -/
structure CompletionResponse where
  content : String
  usage : String
deriving Repr, DecidableEq

/-- The observable outcome of one handler run: HTTP status, the `success` flag
of the JSON body, and the list of `client.chat.completions.create` calls the
run performed. -/
structure HandlerOutcome where
  status : Nat
  success : Bool
  providerCalls : List CompletionParams
deriving Repr, DecidableEq

/-- The default of the destructuring `const { message = … } = req.body`. -/
def defaultTestMessage : String := "Hello, can you confirm you're working correctly?"

/-- The `POST /test-model/:modelId` handler: select the client and model (any
throw lands in the catch block, which responds 500), build the completion
parameters (GPT-5 gets `max_completion_tokens`, others `max_tokens` and
`temperature`), call the provider, and respond 200 on success or 500 on any
error. -/
def testModelHandler (cfg : String → Option ClientModel)
    (provider : CompletionParams → Except String CompletionResponse)
    (modelId : String) (message : Option String := none) : HandlerOutcome :=
  let msg := message.getD defaultTestMessage
  match selectClientAndModel cfg modelId with
  | .error _ => { status := 500, success := false, providerCalls := [] }
  | .ok cm =>
    let isGPT5 := "gpt-5".isPrefixOf cm.modelName
    let params : CompletionParams :=
      { model := cm.modelName
        systemContent := "You are testing the " ++ cm.modelName ++
          " model. Respond briefly confirming the model is working and mention your capabilities."
        userContent := msg
        maxCompletionTokens := if isGPT5 then some 150 else none
        maxTokens := if isGPT5 then none else some 150
        temperatureTenths := if isGPT5 then none else some 7 }
    match provider params with
    | .error _ => { status := 500, success := false, providerCalls := [params] }
    | .ok _ => { status := 200, success := true, providerCalls := [params] }

/-! ## Theorems -/

/-- C6: `generateSEOContent` selects the target-length text by the fixed
three-entry `lengthGuide` lookup — short ↦ "300-500 words", medium ↦
"800-1200 words", long ↦ "1500-2500 words", with medium the default when no
bucket is supplied — and the assembled prompt contains the range mapped from
the given bucket, whatever the other parameters are. -/
theorem generateSEOContent_length_bucket :
    (lengthGuide .short = "300-500 words" ∧ lengthGuide .medium = "800-1200 words" ∧
      lengthGuide .long = "1500-2500 words") ∧
    (∀ title contentType keywords targetAudience tone spyfuData,
      generateSEOContentPrompt title contentType keywords targetAudience none tone spyfuData =
        generateSEOContentPrompt title contentType keywords targetAudience
          (some .medium) tone spyfuData) ∧
    (∀ title contentType keywords targetAudience b tone spyfuData,
      ∃ pre suf,
        generateSEOContentPrompt title contentType keywords targetAudience
            (some b) tone spyfuData =
          pre ++ lengthGuide b ++ suf) := by
  refine ⟨⟨rfl, rfl, rfl⟩, fun _ _ _ _ _ _ => rfl, ?_⟩
  intro title contentType keywords targetAudience b tone spyfuData
  refine ⟨"You are an expert SEO content writer specializing in " ++ contentType ++
    " content. Create comprehensive, engaging content that ranks well in search engines.\n\nCONTENT BRIEF:\n- Title: " ++ title ++
    "\n- Content Type: " ++ contentType ++
    "\n- Target Length: ",
    "\n- Tone: " ++ tone ++
    "\n- Target Audience: " ++ targetAudience ++
    "\n\nPRIMARY KEYWORDS TO TARGET:\n" ++ String.intercalate ", " keywords ++
    "\n\n" ++ seoSpyfuBlock spyfuData ++
    "\n\nCONTENT REQUIREMENTS:\n1. Create a compelling headline and introduction\n2. Naturally integrate target keywords throughout\n3. Use semantic keywords and related terms\n4. Structure with clear headers (H2, H3) for readability\n5. Include actionable insights and value for readers\n6. Optimize for featured snippets where possible\n7. Write meta description (150-160 characters)\n8. Suggest internal linking opportunities\n\nOUTPUT FORMAT:\nProvide the content in markdown format with:\n- Clear heading structure\n- Natural keyword integration\n- Engaging and informative content\n- Meta description suggestion at the end\n\nContent:", ?_⟩
  simp [generateSEOContentPrompt, buildSEOContentPrompt, String.append_assoc]

/-- C7: the prompt-assembly functions are pure and deterministic — equal
inputs give equal output strings — and `buildChatPrompt` combines only the
fixed scaffolding with the rendered input messages and context. -/
theorem promptBuilders_deterministic :
    (∀ p q : SEOPromptParams, p = q → buildSEOContentPrompt p = buildSEOContentPrompt q) ∧
    (∀ (s t : String) (c d : ChatContext), s = t → c = d →
      buildSystemPrompt s c = buildSystemPrompt t d) ∧
    (∀ (conv conv' : List Message) (c d : ChatContext), conv = conv' → c = d →
      buildChatPrompt conv c = buildChatPrompt conv' d) ∧
    (∀ (conv : List Message) (c : ChatContext),
      buildChatPrompt conv c =
        String.join (conv.map renderChatMessage) ++ spyfuBlock c ++
          "Please provide a helpful, actionable response:") := by
  refine ⟨fun p q h => by rw [h], fun s t c d h1 h2 => by rw [h1, h2],
    fun conv conv' c d h1 h2 => by rw [h1, h2], ?_⟩
  intro conv c
  simp [buildChatPrompt, String.join, List.foldl_map]

/-- C7 witness: the determinism and structure statements at a concrete input. -/
theorem promptBuilders_deterministic_witness :
    buildSystemPrompt "rewrite" {} = buildSystemPrompt "rewrite" {} ∧
    buildChatPrompt [⟨"user", "Hi there", ""⟩] {} =
      String.join ([Message.mk "user" "Hi there" ""].map renderChatMessage) ++
        spyfuBlock {} ++ "Please provide a helpful, actionable response:" :=
  ⟨promptBuilders_deterministic.2.1 "rewrite" "rewrite" {} {} rfl rfl,
   promptBuilders_deterministic.2.2.2 [⟨"user", "Hi there", ""⟩] {}⟩

/-- C8: constructing `GeminiContentService` with `GEMINI_API_KEY` absent from
the environment throws at construction time. -/
theorem constructor_requires_credential (env : String → Option String)
    (h : env "GEMINI_API_KEY" = none) :
    mkGeminiContentService env =
      .error "GEMINI_API_KEY environment variable is required" := by
  simp [mkGeminiContentService, h]

/-- C8 witness: the empty environment. -/
theorem constructor_requires_credential_witness :
    mkGeminiContentService (fun _ => none) =
      .error "GEMINI_API_KEY environment variable is required" :=
  constructor_requires_credential (fun _ => none) rfl

/-- C3 (counterexample): for the unknown model identifier "no-such-model" the
handler's failure status is 500, which is not a 4xx-style status. -/
theorem testModel_unknown_not_4xx :
    ¬ (400 ≤ (testModelHandler (fun _ => none)
          (fun _ => .ok ⟨"ok", "u"⟩) "no-such-model" none).status ∧
       (testModelHandler (fun _ => none)
          (fun _ => .ok ⟨"ok", "u"⟩) "no-such-model" none).status < 500) := by
  decide

/-- C3 (amended): for every unknown model identifier the handler returns a
failure response with status 500 — a non-2xx status — and performs no outbound
provider call (`client.chat.completions.create` is never invoked). -/
theorem testModel_unknown_fails_no_call (cfg : String → Option ClientModel)
    (provider : CompletionParams → Except String CompletionResponse)
    (modelId : String) (message : Option String)
    (h : cfg modelId = none) :
    testModelHandler cfg provider modelId message =
      { status := 500, success := false, providerCalls := [] } ∧
    ¬ (200 ≤ (testModelHandler cfg provider modelId message).status ∧
       (testModelHandler cfg provider modelId message).status < 300) := by
  have hh : testModelHandler cfg provider modelId message =
      { status := 500, success := false, providerCalls := [] } := by
    simp [testModelHandler, selectClientAndModel, h]
  exact ⟨hh, by rw [hh]; simp⟩

/-- C3 witness: a concrete unknown identifier against an empty model table. -/
theorem testModel_unknown_fails_no_call_witness :
    testModelHandler (fun _ => none) (fun _ => .ok ⟨"pong", "usage"⟩)
        "grok-99" none =
      { status := 500, success := false, providerCalls := [] } :=
  (testModel_unknown_fails_no_call (fun _ => none)
    (fun _ => .ok ⟨"pong", "usage"⟩) "grok-99" none rfl).1

/-- C5: when no session matches the supplied identifier, `chatWithGemini`
fails with the distinct "Chat session not found" error, the store is returned
unchanged, and the outcome is independent of the provider — no provider call
can influence the run. -/
theorem chatWithGemini_session_not_found (gen : String → Except String String)
    (now : String) (st : SessionStore) (sessionId : Nat)
    (userMessage userId : String) (context : ChatContext)
    (h : getChatSession st sessionId userId = none) :
    chatWithGemini gen now st sessionId userMessage userId context =
      (.error "Chat session not found", st) ∧
    (∀ gen' : String → Except String String,
      chatWithGemini gen' now st sessionId userMessage userId context =
        chatWithGemini gen now st sessionId userMessage userId context) := by
  have k : ∀ g : String → Except String String,
      chatWithGemini g now st sessionId userMessage userId context =
        (.error "Chat session not found", st) := fun g => by
    simp [chatWithGemini, h]
  exact ⟨k gen, fun gen' => (k gen').trans (k gen).symm⟩

/-- C5 witness: an empty store has no session `7` for user "alice". -/
theorem chatWithGemini_session_not_found_witness :
    chatWithGemini (fun _ => .ok "hello") "2025-01-01T00:00:00.000Z" [] 7
        "Write an intro about SEO" "alice" {} =
      (.error "Chat session not found", []) :=
  (chatWithGemini_session_not_found (fun _ => .ok "hello")
    "2025-01-01T00:00:00.000Z" [] 7 "Write an intro about SEO" "alice" {} rfl).1

/-- C9: session access is scoped to the owning user: a session is returned
only when both the id and the owning userId match, and when every stored
session with the requested id belongs to a different user, `chatWithGemini`
fails with the same "Chat session not found" error with the store unchanged. -/
theorem session_access_scoped (gen : String → Except String String) (now : String)
    (st : SessionStore) (sessionId : Nat) (userMessage userId : String)
    (context : ChatContext)
    (howner : ∀ s ∈ st, s.id = sessionId → s.userId ≠ userId) :
    getChatSession st sessionId userId = none ∧
    chatWithGemini gen now st sessionId userMessage userId context =
      (.error "Chat session not found", st) ∧
    (∀ (st' : SessionStore) (sid : Nat) (uid : String) (s : ChatSession),
      getChatSession st' sid uid = some s → s.id = sid ∧ s.userId = uid) := by
  have hnone : getChatSession st sessionId userId = none := by
    rw [getChatSession, List.find?_eq_none]
    intro s hsmem
    simp only [Bool.and_eq_true, decide_eq_true_eq, not_and]
    intro hid
    exact howner s hsmem hid
  refine ⟨hnone, by simp [chatWithGemini, hnone], ?_⟩
  intro st' sid uid s hfind
  have := List.find?_some hfind
  simpa using this

/-- C9 witness: user "mallory" cannot touch session `1` owned by "alice". -/
theorem session_access_scoped_witness :
    chatWithGemini (fun _ => .ok "hello") "2025-01-01T00:00:00.000Z"
        [{ id := 1, userId := "alice", sessionType := "content_creation",
           messages := [] }]
        1 "hi" "mallory" {} =
      (.error "Chat session not found",
       [{ id := 1, userId := "alice", sessionType := "content_creation",
          messages := [] }]) :=
  (session_access_scoped (fun _ => .ok "hello") "2025-01-01T00:00:00.000Z"
    [{ id := 1, userId := "alice", sessionType := "content_creation",
       messages := [] }]
    1 "hi" "mallory" {} (by decide)).2.1

/-- C1: when the provider call made by `chatWithGemini` throws, the call fails
with the generic "Failed to process chat message" error and the database is
returned unchanged — no user or assistant turn is appended. -/
theorem chatWithGemini_provider_error (gen : String → Except String String)
    (now : String) (st : SessionStore) (sessionId : Nat)
    (userMessage userId : String) (context : ChatContext)
    (session : ChatSession) (e : String)
    (hs : getChatSession st sessionId userId = some session)
    (hgen : gen (buildChatPrompt (fullConversation session userMessage context)
        context) = .error e) :
    chatWithGemini gen now st sessionId userMessage userId context =
      (.error "Failed to process chat message", st) := by
  simp [chatWithGemini, hs, hgen]

/-- C1 witness: a session with one stored turn and a throwing provider. -/
theorem chatWithGemini_provider_error_witness :
    chatWithGemini (fun _ => .error "network error") "2025-01-01T00:00:00.000Z"
        [{ id := 1, userId := "alice", sessionType := "content_creation",
           messages := [⟨"user", "old turn", "2024-12-31T00:00:00.000Z"⟩] }]
        1 "Write an intro about SEO" "alice" {} =
      (.error "Failed to process chat message",
       [{ id := 1, userId := "alice", sessionType := "content_creation",
          messages := [⟨"user", "old turn", "2024-12-31T00:00:00.000Z"⟩] }]) :=
  chatWithGemini_provider_error (fun _ => .error "network error")
    "2025-01-01T00:00:00.000Z"
    [{ id := 1, userId := "alice", sessionType := "content_creation",
       messages := [⟨"user", "old turn", "2024-12-31T00:00:00.000Z"⟩] }]
    1 "Write an intro about SEO" "alice" {}
    { id := 1, userId := "alice", sessionType := "content_creation",
      messages := [⟨"user", "old turn", "2024-12-31T00:00:00.000Z"⟩] }
    "network error" (by decide) rfl

/-- Updating the messages of session `sid` commutes with the scoped lookup:
the lookup finds the same row, with the new message list and timestamp. -/
theorem getChatSession_update (st : SessionStore) (sid : Nat) (uid : String)
    (msgs : List Message) (now : String) :
    getChatSession (updateSessionMessages st sid msgs now) sid uid =
      (getChatSession st sid uid).map
        (fun s => { s with messages := msgs, updatedAt := now }) := by
  simp only [getChatSession, updateSessionMessages]
  rw [List.find?_map]
  have hcongr : ((fun s : ChatSession => decide (s.id = sid) && decide (s.userId = uid)) ∘
      (fun s : ChatSession =>
        if s.id = sid then { s with messages := msgs, updatedAt := now } else s)) =
      fun s : ChatSession => decide (s.id = sid) && decide (s.userId = uid) := by
    funext s
    by_cases h : s.id = sid <;> simp [h]
  rw [hcongr]
  cases hf : st.find? (fun s => decide (s.id = sid) && decide (s.userId = uid)) with
  | none => rfl
  | some a =>
    have ha := List.find?_some hf
    simp only [Bool.and_eq_true, decide_eq_true_eq] at ha
    simp [ha.1]

/-- After a run of successful exchanges, the session's message count has grown
by two per exchange. -/
theorem runExchanges_count (gen : String → Except String String) (now : String)
    (sessionId : Nat) (userId : String) (context : ChatContext) :
    ∀ (msgs : List String) (st st' : SessionStore) (session : ChatSession),
      getChatSession st sessionId userId = some session →
      runExchanges gen now sessionId userId context msgs st = .ok st' →
      ∃ session', getChatSession st' sessionId userId = some session' ∧
        session'.messages.length = session.messages.length + 2 * msgs.length := by
  intro msgs
  induction msgs with
  | nil =>
    intro st st' session hs hr
    simp only [runExchanges, Except.ok.injEq] at hr
    subst hr
    exact ⟨session, hs, by simp⟩
  | cons m rest ih =>
    intro st st' session hs hr
    cases hg : gen (buildChatPrompt (fullConversation session m context) context) with
    | error e =>
      have hstep : chatWithGemini gen now st sessionId m userId context =
          (.error "Failed to process chat message", st) := by
        simp [chatWithGemini, hs, hg]
      simp [runExchanges, hstep] at hr
    | ok reply =>
      have hstep : chatWithGemini gen now st sessionId m userId context =
          (.ok { message := reply, sessionId := sessionId,
                 suggestions := extractSuggestions reply },
           updateSessionMessages st sessionId
             (session.messages ++
               [⟨"user", m, now⟩, ⟨"assistant", reply, now⟩]) now) := by
        simp [chatWithGemini, hs, hg]
      rw [runExchanges, hstep] at hr
      have hs1 : getChatSession
          (updateSessionMessages st sessionId
            (session.messages ++
              [⟨"user", m, now⟩, ⟨"assistant", reply, now⟩]) now)
          sessionId userId =
          some { session with
                 messages := session.messages ++
                   [⟨"user", m, now⟩, ⟨"assistant", reply, now⟩]
                 updatedAt := now } := by
        rw [getChatSession_update, hs]
        rfl
      obtain ⟨s', h1, h2⟩ := ih _ st' _ hs1 hr
      refine ⟨s', h1, ?_⟩
      simp only [List.length_append, List.length_cons, List.length_nil] at h2
      simp only [List.length_cons]
      omega

/-- C2: each successful exchange appends exactly the user turn followed by the
assistant turn at the end of the stored log, leaves every other session
untouched, and the scoped lookup then sees exactly the extended log;
consequently, after N successful exchanges on a session with an empty log the
message count equals 2N. -/
theorem chat_exchanges_append_two_in_order :
    (∀ (gen : String → Except String String) (now : String) (st : SessionStore)
        (sessionId : Nat) (userMessage userId : String) (context : ChatContext)
        (session : ChatSession) (reply : String),
      getChatSession st sessionId userId = some session →
      gen (buildChatPrompt (fullConversation session userMessage context)
          context) = .ok reply →
      (chatWithGemini gen now st sessionId userMessage userId context).2 =
        updateSessionMessages st sessionId
          (session.messages ++
            [⟨"user", userMessage, now⟩, ⟨"assistant", reply, now⟩]) now ∧
      getChatSession
          (chatWithGemini gen now st sessionId userMessage userId context).2
          sessionId userId =
        some { session with
               messages := session.messages ++
                 [⟨"user", userMessage, now⟩, ⟨"assistant", reply, now⟩]
               updatedAt := now } ∧
      (∀ s ∈ st, s.id ≠ sessionId →
        s ∈ (chatWithGemini gen now st sessionId userMessage userId context).2)) ∧
    (∀ (gen : String → Except String String) (now : String) (sessionId : Nat)
        (userId : String) (context : ChatContext) (msgs : List String)
        (st st' : SessionStore) (session : ChatSession),
      getChatSession st sessionId userId = some session →
      session.messages = [] →
      runExchanges gen now sessionId userId context msgs st = .ok st' →
      ∃ session', getChatSession st' sessionId userId = some session' ∧
        session'.messages.length = 2 * msgs.length) := by
  constructor
  · intro gen now st sessionId userMessage userId context session reply hs hg
    have hstep : chatWithGemini gen now st sessionId userMessage userId context =
        (.ok { message := reply, sessionId := sessionId,
               suggestions := extractSuggestions reply },
         updateSessionMessages st sessionId
           (session.messages ++
             [⟨"user", userMessage, now⟩, ⟨"assistant", reply, now⟩]) now) := by
      simp [chatWithGemini, hs, hg]
    refine ⟨by rw [hstep], ?_, ?_⟩
    · rw [hstep, getChatSession_update, hs]
      rfl
    · intro s hsmem hne
      rw [hstep]
      have : (if s.id = sessionId
          then { s with
                 messages := session.messages ++
                   [⟨"user", userMessage, now⟩, ⟨"assistant", reply, now⟩]
                 updatedAt := now }
          else s) ∈ updateSessionMessages st sessionId
            (session.messages ++
              [⟨"user", userMessage, now⟩, ⟨"assistant", reply, now⟩]) now :=
        List.mem_map_of_mem _ hsmem
      rwa [if_neg hne] at this
  · intro gen now sessionId userId context msgs st st' session hs hempty hr
    obtain ⟨s', h1, h2⟩ :=
      runExchanges_count gen now sessionId userId context msgs st st' session hs hr
    exact ⟨s', h1, by rw [h2, hempty]; simp⟩

/-- C2 witness: one successful exchange on a session with an empty log gives a
log of exactly the user turn followed by the assistant turn. -/
theorem chat_exchanges_append_two_in_order_witness :
    (chatWithGemini (fun _ => .ok "Sure, happy to help.")
        "2025-01-01T00:00:00.000Z"
        [{ id := 1, userId := "alice", sessionType := "content_creation",
           messages := [] }]
        1 "Write an intro about SEO" "alice" {}).2 =
      updateSessionMessages
        [{ id := 1, userId := "alice", sessionType := "content_creation",
           messages := [] }]
        1
        [⟨"user", "Write an intro about SEO", "2025-01-01T00:00:00.000Z"⟩,
         ⟨"assistant", "Sure, happy to help.", "2025-01-01T00:00:00.000Z"⟩]
        "2025-01-01T00:00:00.000Z" :=
  (chat_exchanges_append_two_in_order.1 (fun _ => .ok "Sure, happy to help.")
    "2025-01-01T00:00:00.000Z"
    [{ id := 1, userId := "alice", sessionType := "content_creation",
       messages := [] }]
    1 "Write an intro about SEO" "alice" {}
    { id := 1, userId := "alice", sessionType := "content_creation",
      messages := [] }
    "Sure, happy to help." (by decide) rfl).1

/-- C4: `extractSuggestions` is a deterministic function of the reply string:
two applications agree; every entry arises from a match of one of the five
fixed phrase patterns, with the leading phrase stripped by the cleaning step;
and at most five entries are returned. -/
theorem extractSuggestions_deterministic_capped :
    (∀ r : String, extractSuggestions r = extractSuggestions r) ∧
    (∀ r : String, ∀ x ∈ extractSuggestions r,
      ∃ p ∈ allPatterns, ∃ m ∈ findMatches p r.data,
        x = String.mk (cleanMatch m)) ∧
    (∀ r : String, (extractSuggestions r).length ≤ 5) := by
  refine ⟨fun _ => rfl, ?_, fun r => List.length_take_le ..⟩
  intro r x hx
  have hx' := List.mem_of_mem_take hx
  obtain ⟨m, hm, hfm⟩ := List.mem_filterMap.mp hx'
  obtain ⟨p, hp, hmp⟩ := List.mem_flatMap.mp hm
  refine ⟨p, hp, m, hmp, ?_⟩
  simp only [] at hfm
  split at hfm
  · exact (Option.some_inj.mp hfm).symm
  · cases hfm

/-- C4 witness: a concrete reply whose single suggestion arises from the
"you could …" pattern. -/
theorem extractSuggestions_deterministic_capped_witness :
    ∃ p ∈ allPatterns,
      ∃ m ∈ findMatches p
          ("You could add more internal links to improve navigation.").data,
        "add more internal links to improve navigation" =
          String.mk (cleanMatch m) :=
  extractSuggestions_deterministic_capped.2.1
    "You could add more internal links to improve navigation."
    "add more internal links to improve navigation" (by decide)

/-- C10: every returned suggestion has, after the cleaning step strips the
leading phrase, a length strictly greater than 10 and strictly less than 100;
the reply "Consider this." matches the "consider" pattern yet yields an empty
suggestion list because its cleaned text is too short. -/
theorem suggestions_length_band :
    (∀ r : String, ∀ x ∈ extractSuggestions r,
      10 < x.length ∧ x.length < 100) ∧
    (extractSuggestions "Consider this." = [] ∧
      findMatches SugPattern.considerP ("Consider this.").data ≠ []) := by
  constructor
  · intro r x hx
    have hx' := List.mem_of_mem_take hx
    obtain ⟨m, hm, hfm⟩ := List.mem_filterMap.mp hx'
    simp only [] at hfm
    split at hfm
    next hcond =>
      have hx2 : x = String.mk (cleanMatch m) := (Option.some_inj.mp hfm).symm
      simp only [Bool.and_eq_true, decide_eq_true_eq] at hcond
      rw [hx2]
      exact hcond
    next => cases hfm
  · exact ⟨by decide, by decide⟩

/-- C10 witness: the band holds for the suggestion extracted from a concrete
reply. -/
theorem suggestions_length_band_witness :
    10 < ("tighten the meta description for clarity" : String).length ∧
      ("tighten the meta description for clarity" : String).length < 100 :=
  suggestions_length_band.1
    "Suggestion: tighten the meta description for clarity."
    "tighten the meta description for clarity" (by decide)

end AgentBuilder
